import Mathlib

/- Verification of the captain-gang analyzer core (src/captain_gang.py) as a
shallow embedding.  Raw HTML parsing (BeautifulSoup) and URL resolution
(urljoin) are external collaborators: a fetched document is represented by the
query results the code actually consumes (heading texts, table cells, anchors
in document order, each text as the raw fragment to which get_text(strip=True)
applies stripping), the `soup` parameter maps fetched markup to that view, and
`resolve` models urljoin.  Everything downstream of those queries (regex
matching, the name heuristic, deduplication, aggregation, orchestration) is
translated directly from the Python source. -/

/-! ## Basic Python string primitives (ASCII scope of the target site) -/

/-- Python `str` whitespace recognized by `\s`, `strip()` and `split()`
(ASCII fragment). -/
def isSpaceBool (c : Char) : Bool :=
  c == ' ' || c == '\t' || c == '\n' || c == '\r' || c == '\x0b' || c == '\x0c'

/-- Strip leading and trailing whitespace from a character list
(Python `str.strip`). -/
def stripList (l : List Char) : List Char :=
  ((l.dropWhile isSpaceBool).reverse.dropWhile isSpaceBool).reverse

/-- Python `str.strip` / the stripping applied by `get_text(strip=True)`. -/
def pyStrip (s : String) : String :=
  String.mk (stripList s.toList)

/-- Python `str.lower` (ASCII). -/
def lowerStr (s : String) : String :=
  String.mk (s.toList.map Char.toLower)

/-- Helper for `pySplit`: `cur` holds the current token, reversed. -/
def pySplitAux : List Char → List Char → List String
  | [], cur => if cur.isEmpty then [] else [String.mk cur.reverse]
  | c :: cs, cur =>
    if isSpaceBool c then
      if cur.isEmpty then pySplitAux cs [] else String.mk cur.reverse :: pySplitAux cs []
    else pySplitAux cs (c :: cur)

/-- Python `str.split()` with no separator: split on whitespace runs,
dropping empty fragments. -/
def pySplit (s : String) : List String :=
  pySplitAux s.toList []

/-- Does `l` start with the pattern? -/
def listStartsWith : List Char → List Char → Bool
  | [], _ => true
  | _ :: _, [] => false
  | p :: ps, c :: cs => p == c && listStartsWith ps cs

/-- Does the pattern occur as a contiguous substring (Python `in`)? -/
def hasSub (pat : List Char) : List Char → Bool
  | [] => pat.isEmpty
  | c :: cs => listStartsWith pat (c :: cs) || hasSub pat cs

/-- Python substring test `needle in hay`. -/
def containsSub (hay needle : String) : Bool :=
  hasSub needle.toList hay.toList

/-- Search for the literal pattern immediately followed by a digit; models
`re.search` of a regex of the shape `lit\d+` (with `.`/`?` escaped). -/
def hasLitThenDigit (pat : List Char) : List Char → Bool
  | [] => false
  | c :: cs =>
    (listStartsWith pat (c :: cs) &&
      (match (c :: cs).drop pat.length with
       | d :: _ => d.isDigit
       | [] => false)) || hasLitThenDigit pat cs

/-- The literal part of the capture regex `id=(\d+)`. -/
def idPat : List Char := ['i', 'd', '=']

/-- Leftmost match of `re.search(r'id=(\d+)', href)`, returning group 1:
the maximal digit run after the first `id=` that is followed by a digit. -/
def extractIdAux : List Char → Option String
  | [] => none
  | c :: cs =>
    if listStartsWith idPat (c :: cs) then
      let ds := ((c :: cs).drop 3).takeWhile Char.isDigit
      if ds.isEmpty then extractIdAux cs else some (String.mk ds)
    else extractIdAux cs

/-- `re.search(r'id=(\d+)', href)` group 1 on a string. -/
def extractId (href : String) : Option String :=
  extractIdAux href.toList

/-- Python `str.isupper` (ASCII): at least one cased character and no
lowercase character. -/
def pyIsUpper (t : String) : Bool :=
  t.toList.any (fun c => c.isUpper) && t.toList.all (fun c => !c.isLower)

/-- Full match of `^[\d\s\-_]+$`. -/
def digitsDashOnly (t : String) : Bool :=
  !t.isEmpty && t.toList.all (fun c => c.isDigit || isSpaceBool c || c == '-' || c == '_')

/-- Full match of `^[A-Za-z\s,\.]+$`. -/
def nameShape (t : String) : Bool :=
  !t.isEmpty && t.toList.all (fun c => c.isAlpha || isSpaceBool c || c == ',' || c == '.')

/-! ## Name heuristic (USTACaptainAnalyzer.looks_like_player_name) -/

/-- The `skip_keywords` list, transcribed verbatim from the source
(duplicates and the stray sentence words `If / a / problem / exists`
included). -/
def skip_keywords : List String :=
  ["Captain", "Co-Captain", "Team", "League", "Division", "Win", "Loss", "Rating",
   "City", "Gender", "Matches", "Player", "Status", "Outcome", "Round", "Home",
   "Away", "Confirmed", "Scheduled", "Defaults", "Singles", "Doubles", "Eligibility",
   "Expiration", "Local", "Sectional", "National", "PlayOff", "Registration",
   "Closed", "Currently", "playing", "If", "a", "problem", "exists", "Red",
   "Rostered", "Individual", "Won", "Scheduled", "Day", "Match", "date", "time",
   "Standings", "Rules", "Newsletters", "Availability", "Coordinator", "Print",
   "Blank", "Score", "Card", "Mountain", "View", "San", "Jose", "Santa", "Clara",
   "Sunnyvale", "Fremont", "Palo", "Alto", "Cupertino", "San", "Mateo", "Antioch",
   "San", "Francisco", "Campbell", "Los", "Gatos", "Milpitas", "Portola", "Valley",
   "Stanford", "South", "San", "Francisco", "Mon", "Tue", "Wed", "Thu", "Fri",
   "Sat", "Sun"]

/-- The `common_words` stoplist from the source. -/
def common_words : List String :=
  ["the", "and", "or", "but", "in", "on", "at", "to", "for", "of", "with", "by"]

/-- USTACaptainAnalyzer.looks_like_player_name, translated clause by clause. -/
def looks_like_player_name (text : String) : Bool :=
  if text.length < 3 then false
  else if skip_keywords.any (fun kw => containsSub (lowerStr text) (lowerStr kw)) then false
  else if pyIsUpper text = true ∧ 3 < text.length then false
  else if digitsDashOnly text = true then false
  else if nameShape text = true ∧ 1 ≤ (pySplit text).length ∧ lowerStr text ∉ common_words
  then true
  else false

/-! ## Data model -/

/-- A hyperlink as BeautifulSoup exposes it: display text (raw, before the
stripping of `get_text(strip=True)`) and `href` attribute. -/
structure Anchor where
  text : String
  href : String
deriving DecidableEq, Repr

/-- A table row: its cell (`td`/`th`) texts in document order. -/
structure Row where
  cells : List String
deriving DecidableEq, Repr

/-- A table: its rows in document order. -/
structure Table where
  rows : List Row
deriving DecidableEq, Repr

/-- A parsed document, as the set of soup queries the analyzer issues:
`h1/h2/h3/b` heading texts, tables, and all anchors, each in document
order. -/
structure Page where
  headings : List String
  tables : List Table
  anchors : List Anchor
deriving DecidableEq, Repr

/-- A team the analyzed player captains (entries of `captain_teams`). -/
structure TeamRef where
  id : String
  name : String
  url : String
deriving DecidableEq, Repr

/-- A player record extracted from a roster page (entries of `players`). -/
structure RosterEntry where
  id : String
  name : String
  team : String
deriving DecidableEq, Repr

/-- The observable data of a completed run of `analyze_captain`. -/
structure AnalysisResult where
  captainId : String
  captainName : Option String
  teams : List TeamRef
  totalAppearances : Nat
  counts : List (String × Nat)
deriving DecidableEq, Repr

/-- Outcome of `analyze_captain`: either the early "No captain teams found!"
return (which carries no data), or a full report. -/
inductive AnalyzeOutcome where
  | noTeamsMsg : AnalyzeOutcome
  | report : AnalysisResult → AnalyzeOutcome
deriving DecidableEq, Repr

/-! ## Profile-page extractor (USTACaptainAnalyzer.parse_player_page) -/

/-- `self.base_url` from the source. -/
def baseUrl : String := "https://leagues.ustanorcal.com"

/-- URL of the player profile page, per the f-string in `parse_player_page`. -/
def playerPageUrl (base pid : String) : String :=
  base ++ "/playermatches.asp?id=" ++ pid

/-- Keywords excluded in the heading scan for the captain name. -/
def profile_name_keywords : List String :=
  ["usta", "northern", "california", "leagues", "matches"]

/-- Keywords excluded in the first-table fallback scan for the captain name. -/
def table_name_keywords : List String :=
  ["usta", "northern", "california", "leagues", "matches", "rating", "expiration"]

/-- First heading whose stripped text is nonempty, longer than 3, free of the
profile keywords, and matches the name shape with at least two tokens. -/
def headingName (p : Page) : Option String :=
  p.headings.findSome? fun raw =>
    let t := pyStrip raw
    if t ≠ "" ∧ 3 < t.length ∧
        (profile_name_keywords.any fun kw => containsSub (lowerStr t) kw) = false ∧
        nameShape t = true ∧ 2 ≤ (pySplit t).length
    then some t else none

/-- Cells of the first table (document order), if any table exists. -/
def rowCells : List Row → List String
  | [] => []
  | r :: rs => r.cells ++ rowCells rs

/-- Cells of the first table of the page. -/
def firstTableCells (p : Page) : List String :=
  match p.tables with
  | [] => []
  | t :: _ => rowCells t.rows

/-- Fallback captain-name scan over the first table's cells. -/
def tableName (p : Page) : Option String :=
  (firstTableCells p).findSome? fun raw =>
    let t := pyStrip raw
    if t ≠ "" ∧ 3 < t.length ∧ nameShape t = true ∧ 2 ≤ (pySplit t).length ∧
        (table_name_keywords.any fun kw => containsSub (lowerStr t) kw) = false
    then some t else none

/-- Captain-name discovery: headings first, then first-table fallback. -/
def profileName (p : Page) : Option String :=
  match headingName p with
  | some n => some n
  | none => tableName p

/-- Literal part of the team-link href filter `teaminfo\.asp\?id=\d+`. -/
def teamLinkPat : List Char := "teaminfo.asp?id=".toList

/-- Literal part of the player-link href filter `playermatches\.asp\?id=\d+`. -/
def playerLinkPat : List Char := "playermatches.asp?id=".toList

/-- Team discovery: anchors whose href matches the team pattern, whose
stripped text contains the literal marker `Captain`, and whose href yields a
numeric id; emitted in document order, urls resolved against the base. -/
def profileTeams (resolve : String → String → String) (base : String) (p : Page) :
    List TeamRef :=
  (p.anchors.filter fun a => hasLitThenDigit teamLinkPat a.href.toList).filterMap fun a =>
    let t := pyStrip a.text
    if containsSub t "Captain" then
      match extractId a.href with
      | some tid => some { id := tid, name := t, url := resolve base a.href }
      | none => none
    else none

/-- USTACaptainAnalyzer.parse_player_page.  `fetch` models `get_page`
(`None` on failure); a falsy (failed or empty) document yields `([], None)`. -/
def parse_player_page (fetch : String → Option String) (soup : String → Page)
    (resolve : String → String → String) (base pid : String) :
    List TeamRef × Option String :=
  match fetch (playerPageUrl base pid) with
  | none => ([], none)
  | some html =>
    if html = "" then ([], none)
    else
      let p := soup html
      (profileTeams resolve base p, profileName p)

/-! ## Roster-page extractor (USTACaptainAnalyzer.parse_team_page) -/

/-- Primary pass over player-profile links: text nonempty and longer than 2,
id recovered from the href, deduplicated through the shared `seen_players`
set under the key `id ++ "_" ++ name`; appends in document order. -/
def linkPass (tname : String) :
    List Anchor → List RosterEntry → List String → List RosterEntry × List String
  | [], players, seen => (players, seen)
  | a :: rest, players, seen =>
    let txt := pyStrip a.text
    if txt ≠ "" ∧ 2 < txt.length then
      match extractId a.href with
      | some pid =>
        let key := pid ++ "_" ++ txt
        if key ∈ seen then linkPass tname rest players seen
        else linkPass tname rest (players ++ [{ id := pid, name := txt, team := tname }])
          (key :: seen)
      | none => linkPass tname rest players seen
    else linkPass tname rest players seen

/-- Secondary pass over every table cell: texts judged plausible names that do
not already occur among the collected entries by exact name, added with the
`unknown` id under the key `"unknown_" ++ name` in the same `seen` set. -/
def cellPass (tname : String) :
    List String → List RosterEntry → List String → List RosterEntry
  | [], players, _ => players
  | c :: rest, players, seen =>
    let txt := pyStrip c
    if txt ≠ "" ∧ looks_like_player_name txt = true then
      if players.any (fun p => p.name == txt) then cellPass tname rest players seen
      else
        let key := "unknown_" ++ txt
        if key ∈ seen then cellPass tname rest players seen
        else cellPass tname rest (players ++ [{ id := "unknown", name := txt, team := tname }])
          (key :: seen)
    else cellPass tname rest players seen

/-- All cells of all tables of a page, in document order. -/
def tableCells : List Table → List String
  | [] => []
  | t :: ts => rowCells t.rows ++ tableCells ts

/-- USTACaptainAnalyzer.parse_team_page: a falsy (failed or empty) fetch gives
`[]`; otherwise the link pass followed by the table-cell pass. -/
def parse_team_page (fetch : String → Option String) (soup : String → Page)
    (team : TeamRef) : List RosterEntry :=
  match fetch team.url with
  | none => []
  | some html =>
    if html = "" then []
    else
      let p := soup html
      let lp := linkPass team.name
        (p.anchors.filter fun a => hasLitThenDigit playerLinkPat a.href.toList) [] []
      cellPass team.name (tableCells p.tables) lp.1 lp.2

/-! ## Aggregator and orchestrator (USTACaptainAnalyzer.analyze_captain) -/

/-- One `defaultdict(int)` increment: bump the first entry with this key, or
append the key with count 1. -/
def bump : List (String × Nat) → String → List (String × Nat)
  | [], k => [(k, 1)]
  | (a, n) :: rest, k =>
    if a = k then (a, n + 1) :: rest else (a, n) :: bump rest k

/-- First-match lookup in the frequency table, defaulting to 0. -/
def lookupD : List (String × Nat) → String → Nat
  | [], _ => 0
  | (a, n) :: rest, k => if a = k then n else lookupD rest k

/-- Sum of all stored counts. -/
def sumCounts (m : List (String × Nat)) : Nat :=
  (m.map Prod.snd).sum

/-- The aggregation loop of `analyze_captain`: one increment per entry's
name, starting from the empty table. -/
def aggregate (players : List RosterEntry) : List (String × Nat) :=
  players.foldl (fun m p => bump m p.name) []

/-- The per-team roster collection loop of `analyze_captain`
(`all_players.extend(players)` in team order). -/
def gather (fetch : String → Option String) (soup : String → Page) :
    List TeamRef → List RosterEntry
  | [] => []
  | t :: ts => parse_team_page fetch soup t ++ gather fetch soup ts

/-- The whitespace cleanup applied to the displayed captain name:
`' '.join(player_name.split())`. -/
def cleanName (s : String) : String :=
  String.intercalate " " (pySplit s)

/-- USTACaptainAnalyzer.analyze_captain: empty team list (from a failed
profile fetch or from zero captain-marked links) prints
"No captain teams found!" and returns nothing; otherwise every team's roster
is fetched and the report data assembled. -/
def analyze_captain (fetch : String → Option String) (soup : String → Page)
    (resolve : String → String → String) (base pid : String) : AnalyzeOutcome :=
  let pr := parse_player_page fetch soup resolve base pid
  if pr.1.isEmpty then AnalyzeOutcome.noTeamsMsg
  else
    let allPlayers := gather fetch soup pr.1
    AnalyzeOutcome.report
      { captainId := pid
        captainName := pr.2.map cleanName
        teams := pr.1
        totalAppearances := allPlayers.length
        counts := aggregate allPlayers }

/-- Trace of the URLs `get_page` is asked for during a run: the profile page
first, then (only when teams were discovered) each team's roster URL in
discovery order. -/
def analyze_fetched_urls (fetch : String → Option String) (soup : String → Page)
    (resolve : String → String → String) (base pid : String) : List String :=
  playerPageUrl base pid ::
    ((parse_player_page fetch soup resolve base pid).1.map TeamRef.url)

/-! ## Concrete fixtures for the end-to-end scenarios -/

/-- urljoin of the site base (no path) with the relative hrefs in scope. -/
def resolveStd : String → String → String := fun b h => b ++ "/" ++ h

/-- A document with no headings, tables or anchors. -/
def emptyPage : Page := { headings := [], tables := [], anchors := [] }

/-- Profile markup of scenario C6: two captain-marked team links. -/
def pageC6 : Page :=
  { headings := [], tables := [],
    anchors :=
      [{ text := "Team Alpha - Captain", href := "teaminfo.asp?id=100" },
       { text := "Team Beta - Co-Captain", href := "teaminfo.asp?id=200" }] }

/-- Fetcher of scenario C6. -/
def fetchC6 : String → Option String := fun u =>
  if u = playerPageUrl baseUrl "77" then some "PROFILE_C6" else none

/-- Soup of scenario C6. -/
def soupC6 : String → Page := fun h =>
  if h = "PROFILE_C6" then pageC6 else emptyPage

/-- Roster markup of scenario C7: the same player link appearing twice. -/
def pageC7 : Page :=
  { headings := [], tables := [],
    anchors :=
      [{ text := "Jane Doe", href := "playermatches.asp?id=55" },
       { text := "Jane Doe", href := "playermatches.asp?id=55" }] }

/-- The team whose roster is parsed in scenario C7. -/
def teamC7 : TeamRef :=
  { id := "7", name := "Team X", url := "https://leagues.ustanorcal.com/teaminfo.asp?id=7" }

/-- Fetcher of scenario C7. -/
def fetchC7 : String → Option String := fun u =>
  if u = teamC7.url then some "ROSTER_C7" else none

/-- Soup of scenario C7. -/
def soupC7 : String → Page := fun h =>
  if h = "ROSTER_C7" then pageC7 else emptyPage

/-- A fetcher on which every request fails. -/
def fetchNone : String → Option String := fun _ => none

/-- Profile markup with a team link that carries no `Captain` marker. -/
def pageNoCap : Page :=
  { headings := [], tables := [],
    anchors := [{ text := "Team Gamma", href := "teaminfo.asp?id=300" }] }

/-- Fetcher of scenario C2: profile fetch succeeds with captain-free markup. -/
def fetchEmptyC2 : String → Option String := fun u =>
  if u = playerPageUrl baseUrl "12" then some "PROFILE_C2" else none

/-- Soup of scenario C2. -/
def soupC2 : String → Page := fun h =>
  if h = "PROFILE_C2" then pageNoCap else emptyPage

/-- Fetcher of scenario C5. -/
def fetchC5 : String → Option String := fun u =>
  if u = playerPageUrl baseUrl "42" then some "PROFILE_C5" else none

/-- Soup of scenario C5. -/
def soupC5 : String → Page := fun h =>
  if h = "PROFILE_C5" then pageNoCap else emptyPage

/-- Profile markup of scenario C8: three captain-marked team links. -/
def profileC8 : Page :=
  { headings := [], tables := [],
    anchors :=
      [{ text := "Team A - Captain", href := "teaminfo.asp?id=1" },
       { text := "Team B - Captain", href := "teaminfo.asp?id=2" },
       { text := "Team C - Co-Captain", href := "teaminfo.asp?id=3" }] }

/-- First discovered team of scenario C8. -/
def ct1 : TeamRef :=
  { id := "1", name := "Team A - Captain",
    url := "https://leagues.ustanorcal.com/teaminfo.asp?id=1" }

/-- Second discovered team of scenario C8 (its roster fetch fails). -/
def ct2 : TeamRef :=
  { id := "2", name := "Team B - Captain",
    url := "https://leagues.ustanorcal.com/teaminfo.asp?id=2" }

/-- Third discovered team of scenario C8. -/
def ct3 : TeamRef :=
  { id := "3", name := "Team C - Co-Captain",
    url := "https://leagues.ustanorcal.com/teaminfo.asp?id=3" }

/-- Roster markup for the first team of scenario C8: one player. -/
def rosterC81 : Page :=
  { headings := [], tables := [],
    anchors := [{ text := "Jo Smith", href := "playermatches.asp?id=21" }] }

/-- Roster markup for the third team of scenario C8: two players. -/
def rosterC83 : Page :=
  { headings := [], tables := [],
    anchors :=
      [{ text := "Jo Smith", href := "playermatches.asp?id=21" },
       { text := "Bo Lee", href := "playermatches.asp?id=22" }] }

/-- Fetcher of scenario C8: the middle team's roster fetch fails. -/
def fetchC8 : String → Option String := fun u =>
  if u = playerPageUrl baseUrl "9" then some "PROFILE_C8"
  else if u = ct1.url then some "ROSTER_C8_1"
  else if u = ct3.url then some "ROSTER_C8_3"
  else none

/-- Soup of scenario C8. -/
def soupC8 : String → Page := fun h =>
  if h = "PROFILE_C8" then profileC8
  else if h = "ROSTER_C8_1" then rosterC81
  else if h = "ROSTER_C8_3" then rosterC83
  else emptyPage

/-! ## Helper lemmas: aggregation -/

theorem lookupD_bump_self (m : List (String × Nat)) (k : String) :
    lookupD (bump m k) k = lookupD m k + 1 := by
  induction m with
  | nil => simp [bump, lookupD]
  | cons p rest ih =>
    obtain ⟨a, n⟩ := p
    by_cases h : a = k
    · subst h; simp [bump, lookupD]
    · simp [bump, lookupD, h, ih]

theorem lookupD_bump_ne (m : List (String × Nat)) (k j : String) (hjk : j ≠ k) :
    lookupD (bump m k) j = lookupD m j := by
  induction m with
  | nil => simp [bump, lookupD, Ne.symm hjk]
  | cons p rest ih =>
    obtain ⟨a, n⟩ := p
    by_cases h : a = k
    · subst h; simp [bump, lookupD, Ne.symm hjk]
    · simp [bump, lookupD, h, ih]

theorem sumCounts_bump (m : List (String × Nat)) (k : String) :
    sumCounts (bump m k) = sumCounts m + 1 := by
  induction m with
  | nil => simp [bump, sumCounts]
  | cons p rest ih =>
    obtain ⟨a, n⟩ := p
    by_cases h : a = k
    · subst h; simp [bump, sumCounts]; omega
    · simp [bump, sumCounts, h] at ih ⊢; omega

theorem lookupD_foldl_bump (es : List RosterEntry) :
    ∀ (m : List (String × Nat)) (k : String),
      lookupD (es.foldl (fun m p => bump m p.name) m) k =
        lookupD m k + (es.filter (fun e => e.name == k)).length := by
  induction es with
  | nil => intro m k; simp
  | cons e es ih =>
    intro m k
    rw [List.foldl_cons, ih, List.filter_cons]
    by_cases h : e.name = k
    · rw [if_pos (by simp [h]), List.length_cons, h, lookupD_bump_self]
      omega
    · rw [if_neg (by simp [h]), lookupD_bump_ne m e.name k (fun hh => h hh.symm)]

theorem sumCounts_foldl_bump (es : List RosterEntry) :
    ∀ m, sumCounts (es.foldl (fun m p => bump m p.name) m) = sumCounts m + es.length := by
  induction es with
  | nil => intro m; simp
  | cons e es ih =>
    intro m
    rw [List.foldl_cons, ih, sumCounts_bump, List.length_cons]
    omega

/-! ## Helper lemmas: stripping, id extraction, substring search -/

theorem dropWhile_head_not (p : Char → Bool) (l : List Char) (c : Char)
    (h : (l.dropWhile p).head? = some c) : p c = false := by
  have hh := List.head?_dropWhile_not p l
  rw [h] at hh
  exact hh

theorem dropWhile_of_head_not (p : Char → Bool) (l : List Char)
    (h : ∀ c, l.head? = some c → p c = false) : l.dropWhile p = l := by
  cases l with
  | nil => rfl
  | cons a l =>
    have ha := h a rfl
    rw [List.dropWhile_cons, if_neg]
    simp [ha]

theorem dropWhile_idem (p : Char → Bool) (l : List Char) :
    (l.dropWhile p).dropWhile p = l.dropWhile p :=
  dropWhile_of_head_not p _ (fun c hc => dropWhile_head_not p l c hc)

theorem dropWhile_isSuffix (p : Char → Bool) (l : List Char) : l.dropWhile p <:+ l := by
  induction l with
  | nil => simp
  | cons a l ih =>
    rw [List.dropWhile_cons]
    by_cases h : p a
    · rw [if_pos h]
      exact ih.trans (List.suffix_cons a l)
    · rw [if_neg h]

theorem stripList_head_not (l : List Char) (c : Char)
    (h : (stripList l).head? = some c) : isSpaceBool c = false := by
  unfold stripList at h
  obtain ⟨r, hr⟩ := dropWhile_isSuffix isSpaceBool (l.dropWhile isSpaceBool).reverse
  have hdrev : ((l.dropWhile isSpaceBool).reverse.dropWhile isSpaceBool).reverse ++ r.reverse =
      l.dropWhile isSpaceBool := by
    have h2 := congrArg List.reverse hr
    rwa [List.reverse_append, List.reverse_reverse] at h2
  cases hXr : ((l.dropWhile isSpaceBool).reverse.dropWhile isSpaceBool).reverse with
  | nil => rw [hXr] at h; simp at h
  | cons a t =>
    rw [hXr] at h
    simp at h
    subst h
    rw [hXr] at hdrev
    have hda : (l.dropWhile isSpaceBool).head? = some a := by
      rw [← hdrev]; rfl
    exact dropWhile_head_not isSpaceBool l a hda

theorem stripList_idem (l : List Char) : stripList (stripList l) = stripList l := by
  have h1 : (stripList l).dropWhile isSpaceBool = stripList l :=
    dropWhile_of_head_not _ _ (fun c hc => stripList_head_not l c hc)
  conv_lhs => rw [stripList]
  rw [h1]
  have h2 : (stripList l).reverse =
      (l.dropWhile isSpaceBool).reverse.dropWhile isSpaceBool := by
    rw [stripList, List.reverse_reverse]
  rw [h2, dropWhile_idem, ← h2, List.reverse_reverse]

theorem pyStrip_idem (s : String) : pyStrip (pyStrip s) = pyStrip s := by
  show String.mk (stripList (stripList s.toList)) = String.mk (stripList s.toList)
  rw [stripList_idem]

theorem extractIdAux_digits (l : List Char) (s : String)
    (h : extractIdAux l = some s) : s ≠ "" ∧ s.toList.all Char.isDigit = true := by
  induction l with
  | nil => simp [extractIdAux] at h
  | cons c cs ih =>
    simp only [extractIdAux] at h
    by_cases h1 : listStartsWith idPat (c :: cs) = true
    · rw [if_pos h1] at h
      by_cases h2 : (((c :: cs).drop 3).takeWhile Char.isDigit).isEmpty = true
      · rw [if_pos h2] at h
        exact ih h
      · rw [if_neg h2] at h
        have hs : s = String.mk (((c :: cs).drop 3).takeWhile Char.isDigit) :=
          (Option.some.inj h).symm
        subst hs
        constructor
        · intro hcon
          have hd : List.takeWhile Char.isDigit (List.drop 3 (c :: cs)) = [] :=
            congrArg String.data hcon
          rw [hd] at h2
          exact h2 rfl
        · have : ∀ x ∈ ((c :: cs).drop 3).takeWhile Char.isDigit, x.isDigit = true :=
            fun x hx => List.mem_takeWhile_imp hx
          exact List.all_eq_true.mpr this
    · rw [if_neg h1] at h
      exact ih h

theorem hasSub_of_mem (c : Char) (l : List Char) (h : c ∈ l) : hasSub [c] l = true := by
  induction l with
  | nil => simp at h
  | cons a as ih =>
    rcases List.mem_cons.mp h with h1 | h1
    · subst h1
      simp [hasSub, listStartsWith]
    · simp [hasSub, ih h1]

/-! ## Helper lemmas: the roster invariant -/

/-- The PersonRef invariant for extracted roster entries. -/
def entryOk (e : RosterEntry) : Prop :=
  pyStrip e.name ≠ "" ∧
    (e.id = "unknown" ∨ (e.id ≠ "" ∧ e.id.toList.all Char.isDigit = true))

theorem linkPass_ok (tname : String) (as : List Anchor) :
    ∀ (players : List RosterEntry) (seen : List String),
      (∀ e ∈ players, entryOk e) →
      ∀ e ∈ (linkPass tname as players seen).1, entryOk e := by
  induction as with
  | nil =>
    intro players seen hp e he
    simp only [linkPass] at he
    exact hp e he
  | cons a rest ih =>
    intro players seen hp e he
    simp only [linkPass] at he
    by_cases hg : pyStrip a.text ≠ "" ∧ 2 < (pyStrip a.text).length
    · rw [if_pos hg] at he
      rcases hx : extractId a.href with _ | pid <;> simp only [hx] at he
      · exact ih players seen hp e he
      · by_cases hk : pid ++ "_" ++ pyStrip a.text ∈ seen
        · rw [if_pos hk] at he
          exact ih players seen hp e he
        · rw [if_neg hk] at he
          refine ih _ _ ?_ e he
          intro e2 he2
          rcases List.mem_append.mp he2 with h2 | h2
          · exact hp e2 h2
          · have he3 : e2 = { id := pid, name := pyStrip a.text, team := tname } := by
              simpa using h2
            subst he3
            refine ⟨?_, Or.inr (extractIdAux_digits a.href.toList pid hx)⟩
            show pyStrip (pyStrip a.text) ≠ ""
            rw [pyStrip_idem]
            exact hg.1
    · rw [if_neg hg] at he
      exact ih players seen hp e he

theorem cellPass_ok (tname : String) (cs : List String) :
    ∀ (players : List RosterEntry) (seen : List String),
      (∀ e ∈ players, entryOk e) →
      ∀ e ∈ cellPass tname cs players seen, entryOk e := by
  induction cs with
  | nil =>
    intro players seen hp e he
    simp only [cellPass] at he
    exact hp e he
  | cons c rest ih =>
    intro players seen hp e he
    simp only [cellPass] at he
    by_cases hg : pyStrip c ≠ "" ∧ looks_like_player_name (pyStrip c) = true
    · rw [if_pos hg] at he
      by_cases ha : players.any (fun p => p.name == pyStrip c)
      · rw [if_pos ha] at he
        exact ih players seen hp e he
      · rw [if_neg ha] at he
        by_cases hk : "unknown_" ++ pyStrip c ∈ seen
        · rw [if_pos hk] at he
          exact ih players seen hp e he
        · rw [if_neg hk] at he
          refine ih _ _ ?_ e he
          intro e2 he2
          rcases List.mem_append.mp he2 with h2 | h2
          · exact hp e2 h2
          · have he3 : e2 = { id := "unknown", name := pyStrip c, team := tname } := by
              simpa using h2
            subst he3
            refine ⟨?_, Or.inl rfl⟩
            show pyStrip (pyStrip c) ≠ ""
            rw [pyStrip_idem]
            exact hg.1
    · rw [if_neg hg] at he
      exact ih players seen hp e he

theorem parse_team_page_ok (fetch : String → Option String) (soup : String → Page)
    (team : TeamRef) (e : RosterEntry) (he : e ∈ parse_team_page fetch soup team) :
    entryOk e := by
  unfold parse_team_page at he
  rcases hf : fetch team.url with _ | html <;> simp only [hf] at he
  · simp at he
  · by_cases hh : html = ""
    · rw [if_pos hh] at he
      simp at he
    · rw [if_neg hh] at he
      refine cellPass_ok team.name _ _ _ ?_ e he
      exact linkPass_ok team.name _ [] [] (by intro e2 he2; simp at he2)

/-! ## Claims -/

/-- Claim C1 (code evaluated at the spec's test vector): the heuristic
rejects "Captain", "RATING", "12-34", "Mon" and "San Jose" and accepts
"Smith, John" as the spec demands, but it rejects "Maria Garcia" — the
denylist entry "a" (from the tokenized phrase "If a problem exists")
substring-matches every text containing the letter a, contradicting the
function's stated purpose of recognizing player names. -/
theorem c1_heuristic_behavior :
    looks_like_player_name "Captain" = false ∧
    looks_like_player_name "RATING" = false ∧
    looks_like_player_name "12-34" = false ∧
    looks_like_player_name "Mon" = false ∧
    looks_like_player_name "San Jose" = false ∧
    looks_like_player_name "Smith, John" = true ∧
    looks_like_player_name "Maria Garcia" = false := by
  decide

/-- Claim C2, counterexample: a run whose initial profile fetch fails and a
run whose profile fetch succeeds with zero captain-marked links end in the
identical `noTeamsMsg` outcome ("No captain teams found!"), so the failure
outcome is not distinct from the legitimate empty outcome. -/
theorem c2_counterexample :
    fetchNone (playerPageUrl baseUrl "11") = none ∧
    fetchEmptyC2 (playerPageUrl baseUrl "12") = some "PROFILE_C2" ∧
    profileTeams resolveStd baseUrl (soupC2 "PROFILE_C2") = [] ∧
    analyze_captain fetchNone soupC2 resolveStd baseUrl "11" = AnalyzeOutcome.noTeamsMsg ∧
    analyze_captain fetchEmptyC2 soupC2 resolveStd baseUrl "12" = AnalyzeOutcome.noTeamsMsg := by
  decide

/-- Claim C2 (amended): when the initial profile fetch fails, the run
terminates with no partial result — no report is produced and no roster URL
is requested — but the outcome is the same "No captain teams found!" message
used for the legitimate zero-captain-teams case, not a distinct one. -/
theorem c2_profile_fetch_failure (fetch : String → Option String) (soup : String → Page)
    (resolve : String → String → String) (base pid : String)
    (h : fetch (playerPageUrl base pid) = none) :
    analyze_captain fetch soup resolve base pid = AnalyzeOutcome.noTeamsMsg ∧
    analyze_fetched_urls fetch soup resolve base pid = [playerPageUrl base pid] := by
  have hpp : parse_player_page fetch soup resolve base pid = ([], none) := by
    simp only [parse_player_page, h]
  constructor
  · simp only [analyze_captain, hpp]
    rfl
  · simp only [analyze_fetched_urls, hpp]
    rfl

/-- Witness for C2: the amended theorem applied to a concrete failing
fetcher. -/
theorem c2_witness :
    analyze_captain fetchNone soupC2 resolveStd baseUrl "11" = AnalyzeOutcome.noTeamsMsg ∧
    analyze_fetched_urls fetchNone soupC2 resolveStd baseUrl "11" =
      [playerPageUrl baseUrl "11"] :=
  c2_profile_fetch_failure fetchNone soupC2 resolveStd baseUrl "11" rfl

/-- Claim C3: aggregation performs one increment per entry's name, so the
counts sum to the input length and each key's count is the number of entries
carrying exactly that name. -/
theorem c3_aggregate_counts (es : List RosterEntry) :
    sumCounts (aggregate es) = es.length ∧
    ∀ k, lookupD (aggregate es) k = (es.filter (fun e => e.name == k)).length := by
  constructor
  · rw [aggregate, sumCounts_foldl_bump]
    simp [sumCounts]
  · intro k
    rw [aggregate, lookupD_foldl_bump]
    simp [lookupD]

/-- Claim C4: a team whose roster markup is unfetchable (fetch failure) or
empty yields an empty roster sequence; the extractor is a total function, so
no exception can be raised. -/
theorem c4_empty_or_failed_roster (fetch : String → Option String) (soup : String → Page)
    (team : TeamRef) (h : fetch team.url = none ∨ fetch team.url = some "") :
    parse_team_page fetch soup team = [] := by
  unfold parse_team_page
  rcases h with h | h
  · rw [h]
  · rw [h]
    simp

/-- Witness for C4: the theorem applied to a concrete always-failing
fetcher. -/
theorem c4_witness : parse_team_page fetchNone soupC2 teamC7 = [] :=
  c4_empty_or_failed_roster fetchNone soupC2 teamC7 (Or.inl rfl)

/-- Claim C5, counterexample: with a successfully fetched profile holding
zero captain-marked links, `analyze_captain` ends in the bare `noTeamsMsg`
outcome — it does not return an AnalysisResult with empty teams and zero
total appearances as the claim states. -/
theorem c5_counterexample :
    fetchC5 (playerPageUrl baseUrl "42") = some "PROFILE_C5" ∧
    profileTeams resolveStd baseUrl (soupC5 "PROFILE_C5") = [] ∧
    analyze_captain fetchC5 soupC5 resolveStd baseUrl "42" = AnalyzeOutcome.noTeamsMsg ∧
    AnalyzeOutcome.noTeamsMsg ≠ AnalyzeOutcome.report
      { captainId := "42", captainName := none, teams := [],
        totalAppearances := 0, counts := [] } := by
  decide

/-- Claim C5 (amended): with a successful, non-empty profile fetch holding
zero captain-marked team links, the run reports "no captain teams found",
performs no roster fetch, and terminates without producing any
AnalysisResult. -/
theorem c5_zero_captain_links (fetch : String → Option String) (soup : String → Page)
    (resolve : String → String → String) (base pid html : String)
    (hf : fetch (playerPageUrl base pid) = some html) (hne : html ≠ "")
    (hteams : profileTeams resolve base (soup html) = []) :
    analyze_captain fetch soup resolve base pid = AnalyzeOutcome.noTeamsMsg ∧
    analyze_fetched_urls fetch soup resolve base pid = [playerPageUrl base pid] := by
  have hpp : parse_player_page fetch soup resolve base pid = ([], profileName (soup html)) := by
    simp only [parse_player_page, hf, if_neg hne, hteams]
  constructor
  · simp only [analyze_captain, hpp]
    rfl
  · simp only [analyze_fetched_urls, hpp]
    rfl

/-- Witness for C5: the amended theorem applied to the concrete
captain-free profile fixture. -/
theorem c5_witness :
    analyze_captain fetchC5 soupC5 resolveStd baseUrl "42" = AnalyzeOutcome.noTeamsMsg ∧
    analyze_fetched_urls fetchC5 soupC5 resolveStd baseUrl "42" =
      [playerPageUrl baseUrl "42"] :=
  c5_zero_captain_links fetchC5 soupC5 resolveStd baseUrl "42" "PROFILE_C5" rfl
    (by decide) (by decide)

/-- Claim C6: a profile page with the two links "Team Alpha - Captain"
(teaminfo.asp?id=100) and "Team Beta - Co-Captain" (teaminfo.asp?id=200)
yields exactly the two TeamRefs with ids "100" and "200" in document
order. -/
theorem c6_two_captain_links :
    (parse_player_page fetchC6 soupC6 resolveStd baseUrl "77").1 =
      [{ id := "100", name := "Team Alpha - Captain",
         url := "https://leagues.ustanorcal.com/teaminfo.asp?id=100" },
       { id := "200", name := "Team Beta - Co-Captain",
         url := "https://leagues.ustanorcal.com/teaminfo.asp?id=200" }] := by
  decide

/-- Claim C7: a roster page on which the hyperlink "Jane Doe" →
playermatches.asp?id=55 appears twice yields exactly one RosterEntry for
that (id, name) pair, with id "55". -/
theorem c7_duplicate_player_link_dedup :
    parse_team_page fetchC7 soupC7 teamC7 =
      [{ id := "55", name := "Jane Doe", team := "Team X" }] := by
  decide

/-- Claim C8: in a run that discovered exactly the teams t1, t2, t3, if the
roster fetch of one of them fails, the report still lists all three teams in
discovery order, the failed team contributes zero roster entries, and the
total-appearances count is the sum over the three per-team rosters (hence
over the succeeding teams only, the failed one contributing zero). -/
theorem c8_one_team_fetch_fails (fetch : String → Option String) (soup : String → Page)
    (resolve : String → String → String) (base pid : String) (t1 t2 t3 tf : TeamRef)
    (hteams : (parse_player_page fetch soup resolve base pid).1 = [t1, t2, t3])
    (_hmem : tf ∈ [t1, t2, t3]) (hfail : fetch tf.url = none) :
    parse_team_page fetch soup tf = [] ∧
    (∃ nm cnts, analyze_captain fetch soup resolve base pid = AnalyzeOutcome.report
      { captainId := pid, captainName := nm, teams := [t1, t2, t3],
        totalAppearances := (gather fetch soup [t1, t2, t3]).length, counts := cnts }) ∧
    (gather fetch soup [t1, t2, t3]).length =
      (parse_team_page fetch soup t1).length + (parse_team_page fetch soup t2).length +
        (parse_team_page fetch soup t3).length := by
  refine ⟨?_, ?_, ?_⟩
  · unfold parse_team_page
    rw [hfail]
  · refine ⟨(parse_player_page fetch soup resolve base pid).2.map cleanName,
      aggregate (gather fetch soup [t1, t2, t3]), ?_⟩
    simp only [analyze_captain]
    rw [hteams]
    rfl
  · simp [gather, List.length_append]
    omega

/-- Witness for C8: the theorem applied to the concrete three-team scenario
in which the middle team's roster fetch fails. -/
theorem c8_witness :
    parse_team_page fetchC8 soupC8 ct2 = [] ∧
    (∃ nm cnts, analyze_captain fetchC8 soupC8 resolveStd baseUrl "9" = AnalyzeOutcome.report
      { captainId := "9", captainName := nm, teams := [ct1, ct2, ct3],
        totalAppearances := (gather fetchC8 soupC8 [ct1, ct2, ct3]).length,
        counts := cnts }) ∧
    (gather fetchC8 soupC8 [ct1, ct2, ct3]).length =
      (parse_team_page fetchC8 soupC8 ct1).length +
        (parse_team_page fetchC8 soupC8 ct2).length +
        (parse_team_page fetchC8 soupC8 ct3).length :=
  c8_one_team_fetch_fails fetchC8 soupC8 resolveStd baseUrl "9" ct1 ct2 ct3 ct2
    (by decide) (by decide) (by decide)

/-- Claim C9: every RosterEntry emitted by the roster extractor — from the
hyperlink pass or the table-cell pass — has a name that is non-empty after
trimming and an id that is either a non-empty digit string or the sentinel
"unknown". -/
theorem c9_roster_entry_invariant (fetch : String → Option String) (soup : String → Page)
    (team : TeamRef) (e : RosterEntry) (he : e ∈ parse_team_page fetch soup team) :
    pyStrip e.name ≠ "" ∧
      (e.id = "unknown" ∨ (e.id ≠ "" ∧ e.id.toList.all Char.isDigit = true)) :=
  parse_team_page_ok fetch soup team e he

/-- Witness for C9: the invariant instantiated on the concrete Jane Doe
roster entry. -/
theorem c9_witness :
    pyStrip (RosterEntry.mk "55" "Jane Doe" "Team X").name ≠ "" ∧
      ((RosterEntry.mk "55" "Jane Doe" "Team X").id = "unknown" ∨
        ((RosterEntry.mk "55" "Jane Doe" "Team X").id ≠ "" ∧
          (RosterEntry.mk "55" "Jane Doe" "Team X").id.toList.all Char.isDigit = true)) :=
  c9_roster_entry_invariant fetchC7 soupC7 teamC7 (RosterEntry.mk "55" "Jane Doe" "Team X")
    (by decide)

/-- Claim C10: the denylist rejection is a case-insensitive substring test:
any text in which some skip keyword occurs (not only as a whole word) is
rejected, and in particular — the keyword "a" being on the list — any text
containing the letter a in either case is rejected. -/
theorem c10_denylist_substring_rejection :
    (∀ text kw, kw ∈ skip_keywords →
      containsSub (lowerStr text) (lowerStr kw) = true →
      looks_like_player_name text = false) ∧
    (∀ text, (text.toList.any fun c => c == 'a' || c == 'A') = true →
      looks_like_player_name text = false) := by
  have main : ∀ text kw, kw ∈ skip_keywords →
      containsSub (lowerStr text) (lowerStr kw) = true →
      looks_like_player_name text = false := by
    intro text kw hkw hsub
    unfold looks_like_player_name
    by_cases h3 : text.length < 3
    · rw [if_pos h3]
    · rw [if_neg h3, if_pos]
      exact List.any_eq_true.mpr ⟨kw, hkw, hsub⟩
  refine ⟨main, ?_⟩
  intro text hany
  apply main text "a" (by decide)
  have hmem : 'a' ∈ (lowerStr text).toList := by
    rcases List.any_eq_true.mp hany with ⟨c, hc, hor⟩
    have hca : c = 'a' ∨ c = 'A' := by simpa using hor
    have hl : Char.toLower c = 'a' := by
      rcases hca with h | h <;> subst h <;> decide
    show 'a' ∈ text.toList.map Char.toLower
    exact List.mem_map.mpr ⟨c, hc, hl⟩
  exact hasSub_of_mem 'a' (lowerStr text).toList hmem

/-- Witness for C10: the keyword clause applied at "Bcd Team" with keyword
"Team", and the letter-a clause applied at "Uvw Xyz Maria". -/
theorem c10_witness :
    looks_like_player_name "Bcd Team" = false ∧
    looks_like_player_name "Uvw Xyz Maria" = false :=
  ⟨c10_denylist_substring_rejection.1 "Bcd Team" "Team" (by decide) (by decide),
   c10_denylist_substring_rejection.2 "Uvw Xyz Maria" (by decide)⟩
